import Mathlib

/-!
Shallow embedding of `vocode/streaming/utils/goodbye_model.py` (GoodbyeModel).

Modelling conventions:
- Embedding vectors are lists of rationals (`List ℚ`); the Python code works
  with float64 numpy arrays, and the exact-rational model captures the
  algorithmic content (dot products, maxima, strict threshold comparison).
- The reference embedding matrix `np.empty((EMBEDDING_SIZE, n))` with column
  `i` assigned the embedding of phrase `i` is modelled as the list of its
  columns (`List (List ℚ)`).
- External effects are explicit state passing over a `World`: the redis-backed
  store contents, the filesystem contents, the log of outbound embedding calls
  (`openai.Embedding.acreate`), and a log of cache read/write events.
- Fallible operations return `Except Err α × World`: the world component
  records the effects performed up to the point of failure.
- `openai.api_key` is a process-global mutable field of the `openai` module;
  it is modelled as an explicit `OpenAIGlobal` value threaded through the
  constructor.
- `load_or_create_embeddings` (source lines 50-53) returns
  `self._from_redis(key)` / `self._from_path(path)` WITHOUT awaiting them:
  in Python this produces an un-run coroutine object and executes none of the
  flow's body. The model makes this explicit with `Coro`/`GoodbyeVal`:
  resolution returns a `GoodbyeVal.coro` value and leaves the world untouched,
  and `initialize_embeddings` stores that coroutine object — never a matrix —
  into `goodbye_embeddings`. The slow path of `is_goodbye` then raises a
  `TypeError` at `embedding @ self.goodbye_embeddings` (matmul with a
  coroutine). The flow bodies `_from_redis` / `_from_path` are modelled
  separately with their own (internally awaited) semantics, describing what
  they do when actually run.
-/

/-- An embedding vector: a list of rationals (numpy 1-d float array). -/
abbrev Embedding := List ℚ

/-- The reference embedding matrix, represented as its list of columns. -/
abbrev MatrixT := List Embedding

/-- Dot product of two vectors (numpy `@` between two 1-d arrays of equal
length; shapes are assumed compatible, as in every call site of the source). -/
def dot (a b : Embedding) : ℚ := (List.zipWith (fun x y => x * y) a b).sum

/-- The `model=` / `engine=` request parameter passed to
`openai.Embedding.acreate`. -/
inductive ModelParam where
  | model : String → ModelParam
  | engine : String → ModelParam
deriving DecidableEq, Repr

/-- One outbound embedding request: the `input` text and the model-or-engine
parameter it was made with. -/
structure EmbedCall where
  input : String
  param : ModelParam
deriving DecidableEq, Repr

/-- Observable cache-backend operations performed by the embedding cache. -/
inductive CacheEvent where
  | storeGet : String → CacheEvent
  | storePut : String → CacheEvent
  | fileRead : String → CacheEvent
  | fileWrite : String → CacheEvent
deriving DecidableEq, Repr

/-- Whether an event belongs to the keyed-store flow. -/
def CacheEvent.isStore : CacheEvent → Bool
  | .storeGet _ => true
  | .storePut _ => true
  | _ => false

/-- Whether an event writes to a cache backend (`store.put` / `np.save`). -/
def CacheEvent.isWrite : CacheEvent → Bool
  | .storePut _ => true
  | .fileWrite _ => true
  | _ => false

/-- Errors surfaced by the model. `configError` is the `ValueError` raised by
the constructor on a missing API key; `providerError` is a failed
`openai.Embedding.acreate` call; `notInitialized` is the `assert` at the top
of `is_goodbye`; `valueError` is a numpy `ValueError` (shape-mismatched column
assignment, or `np.max` over an empty array); `typeError` is the `TypeError`
numpy raises when `embedding @ self.goodbye_embeddings` is applied to the
un-run coroutine object stored by the initializer. -/
inductive Err where
  | configError
  | providerError
  | notInitialized
  | valueError
  | typeError
deriving DecidableEq, Repr

/-- The ambient configuration the process runs in: the embedding provider
(`openai.Embedding.acreate`, `none` = the call fails), and the two
environment variables the module reads. -/
structure Env where
  provider : String → Option Embedding
  azureEngine : Option String
  openaiKeyEnv : Option String

/-- External mutable state: the keyed store (redis), the filesystem, the log
of outbound embedding calls, and the log of cache-backend events. -/
structure World where
  redis : String → Option MatrixT
  fs : String → Option MatrixT
  calls : List EmbedCall
  events : List CacheEvent

/-- Append one cache event to the world's event log. -/
def logEvent (w : World) (e : CacheEvent) : World :=
  { w with events := w.events ++ [e] }

/-- Modelled from the spec: the store boundary's `get(key) -> Optional<Matrix>`
(`RedisConfigManager.get_goodbye_embeddings`, whose source is not part of this
tree); a lookup in the keyed store. -/
def store_get (w : World) (key : String) : Option MatrixT := w.redis key

/-- Modelled from the spec: the store boundary's `put(key, matrix)`
(`RedisConfigManager.save_goodbye_embeddings`, whose source is not part of
this tree); a keyed overwrite of the store. -/
def store_put (w : World) (key : String) (M : MatrixT) : World :=
  { w with redis := fun k => if k = key then some M else w.redis k }

/-- `np.save(path, M)`: overwrite the file at `path`. -/
def np_save (w : World) (path : String) (M : MatrixT) : World :=
  { w with fs := fun p => if p = path then some M else w.fs p }

/-- Python's `needle in hay` substring test on character lists. -/
def containsSub (needle : List Char) : List Char → Bool
  | [] => needle.isEmpty
  | c :: t => needle.isPrefixOf (c :: t) || containsSub needle t

/-- Python's `str.lower()` (ASCII case mapping, which covers every string the
module manipulates). -/
def pyLower (l : List Char) : List Char := l.map Char.toLower

/-- The whitespace characters Python's `str.strip()` removes. -/
def pyIsSpace (c : Char) : Bool :=
  c = ' ' || c = '\t' || c = '\n' || c = '\r' || c = '\x0b' || c = '\x0c'

/-- Python's `str.strip()`: drop leading and trailing whitespace. -/
def pyStrip (l : List Char) : List Char :=
  ((l.dropWhile pyIsSpace).reverse.dropWhile pyIsSpace).reverse

/-- `SIMILARITY_THRESHOLD = 0.9`. -/
def SIMILARITY_THRESHOLD : ℚ := 9 / 10

/-- `EMBEDDING_SIZE = 1536`. -/
def EMBEDDING_SIZE : Nat := 1536

/-- The default `GOODBYE_PHRASES` list. -/
def GOODBYE_PHRASES : List String :=
  ["bye", "goodbye", "see you", "see you later", "talk to you later",
   "talk to you soon", "have a good day", "have a good night"]

/-- The `openai` module's process-global `api_key` field. -/
structure OpenAIGlobal where
  api_key : Option String
deriving DecidableEq, Repr

/-- Python's `a or b` on optional strings: `a` unless it is falsy
(`None` or `""`). -/
def pyOrStr : Option String → Option String → Option String
  | some s, b => if s = "" then b else some s
  | none, b => b

/-- Python truthiness of an optional string (`None` and `""` are falsy). -/
def truthyStr : Option String → Bool
  | some s => decide (s ≠ "")
  | none => false

/-- A coroutine object produced by calling an `async def` method without
awaiting it: it records which flow it wraps; none of that flow's effects
have run. -/
inductive Coro where
  | fromRedis : String → Coro
  | fromPath : String → Coro
deriving DecidableEq, Repr

/-- What `self.goodbye_embeddings` can hold at runtime: despite the
`Optional[np.ndarray]` annotation, the initializer actually stores the
un-run coroutine object returned by `load_or_create_embeddings`. -/
inductive GoodbyeVal where
  | arr : MatrixT → GoodbyeVal
  | coro : Coro → GoodbyeVal
deriving DecidableEq, Repr

/-- The state of one `GoodbyeModel` instance. `config_manager` records whether
a redis store handle was supplied (the handle's contents live in `World`). -/
structure GoodbyeModel where
  embeddings_cache_path : String
  goodbye_embeddings : Option GoodbyeVal
  config_manager : Bool
  goodbye_phrases : List String

/-- `GoodbyeModel.__init__`: assigns `openai.api_key = openai_api_key or
getenv("OPENAI_API_KEY")` (a mutation of the process-global `openai` module
state, performed before the key check), raises `ValueError` when the
resulting key is falsy, and otherwise builds the instance with
`goodbye_embeddings = None`. Defaults in the source: the cache path defaults
to a directory next to the module, `goodbye_phrases` defaults to
`GOODBYE_PHRASES`. -/
def GoodbyeModel.init (env : Env) (embeddings_cache_path : String)
    (openai_api_key : Option String) (config_manager : Bool)
    (goodbye_phrases : List String) (_g : OpenAIGlobal) :
    Except Err GoodbyeModel × OpenAIGlobal :=
  let g1 : OpenAIGlobal := { api_key := pyOrStr openai_api_key env.openaiKeyEnv }
  if truthyStr g1.api_key then
    (.ok { embeddings_cache_path := embeddings_cache_path,
           goodbye_embeddings := none,
           config_manager := config_manager,
           goodbye_phrases := goodbye_phrases }, g1)
  else (.error .configError, g1)

/-- `engine = getenv("AZURE_OPENAI_TEXT_EMBEDDING_ENGINE"); if engine:
params["engine"] = engine else: params["model"] = "text-embedding-ada-002"`.
The environment read is falsy on `None` and on the empty string. -/
def modelOrEngine (env : Env) : ModelParam :=
  match env.azureEngine with
  | some e => if e = "" then .model "text-embedding-ada-002" else .engine e
  | none => .model "text-embedding-ada-002"

/-- `GoodbyeModel.create_embedding`: one outbound
`openai.Embedding.acreate(**params)` call (always logged, since the request
is made before the response can fail), returning the response's embedding
vector. -/
def create_embedding (env : Env) (text : String) (w : World) :
    Except Err Embedding × World :=
  let res : Except Err Embedding :=
    match env.provider text with
    | some v => .ok v
    | none => .error .providerError
  (res, { w with calls := w.calls ++ [{ input := text, param := modelOrEngine env }] })

/-- The loop of `GoodbyeModel.create_embeddings`: `embeddings[:, i] =
await self.create_embedding(goodbye_phrase)` for each phrase in order.
A vector whose length differs from `EMBEDDING_SIZE` makes the numpy column
assignment raise `ValueError` (size-1 broadcasting is not modelled); the
first failure aborts the whole build. -/
def create_embeddings_loop (env : Env) (phrases : List String) (w : World) :
    Except Err MatrixT × World :=
  match phrases with
  | [] => (.ok [], w)
  | p :: rest =>
    let step := create_embedding env p w
    match step.1 with
    | .error e => (.error e, step.2)
    | .ok v =>
      if v.length = EMBEDDING_SIZE then
        let restRes := create_embeddings_loop env rest step.2
        match restRes.1 with
        | .error e => (.error e, restRes.2)
        | .ok M => (.ok (v :: M), restRes.2)
      else (.error .valueError, step.2)

/-- `GoodbyeModel.create_embeddings`: builds the `(EMBEDDING_SIZE, n)` matrix
column by column, sequentially. (The `print("Creating embeddings...")`
diagnostic is not modelled.) -/
def create_embeddings (env : Env) (phrases : List String) (w : World) :
    Except Err MatrixT × World :=
  create_embeddings_loop env phrases w

/-- The body of `GoodbyeModel._from_redis` — what the coroutine does when it
is actually run (its internal awaits are genuine): `None` guard on the
handle, then `get_goodbye_embeddings(key)`; a present value is returned
as-is, an absent one triggers a fresh build followed by
`save_goodbye_embeddings(key, m)`. -/
def GoodbyeModel._from_redis (env : Env) (m : GoodbyeModel) (key : String)
    (w : World) : Except Err (Option MatrixT) × World :=
  if m.config_manager = false then (.ok none, w)
  else
    let w1 := logEvent w (.storeGet key)
    match store_get w key with
    | some goodbye_embeddings => (.ok (some goodbye_embeddings), w1)
    | none =>
      let built := create_embeddings env m.goodbye_phrases w1
      match built.1 with
      | .error e => (.error e, built.2)
      | .ok embeddings =>
        (.ok (some embeddings),
         logEvent (store_put built.2 key embeddings) (.storePut key))

/-- The body of `GoodbyeModel._from_path` — what the coroutine does when it
is actually run (its internal awaits are genuine): `os.path.exists(path)`
then `np.load(path)`; on a missing file, a fresh build followed by
`np.save(path, m)`. -/
def GoodbyeModel._from_path (env : Env) (m : GoodbyeModel) (path : String)
    (w : World) : Except Err MatrixT × World :=
  match w.fs path with
  | some loaded => (.ok loaded, logEvent w (.fileRead path))
  | none =>
    let built := create_embeddings env m.goodbye_phrases w
    match built.1 with
    | .error e => (.error e, built.2)
    | .ok embeddings =>
      (.ok embeddings, logEvent (np_save built.2 path embeddings) (.fileWrite path))

/-- `GoodbyeModel.load_or_create_embeddings(path, key="default")`:
`if self.config_manager and key:` selects the redis flow, else the file
flow — but the source RETURNS `self._from_redis(key)` /
`self._from_path(path)` WITHOUT awaiting them (lines 52-53). Awaiting this
method therefore yields the selected flow's un-run coroutine object: no
store access, no file access, no build, no possible failure; the world is
untouched. -/
def GoodbyeModel.load_or_create_embeddings (m : GoodbyeModel)
    (path : String) (key : String) (w : World) : GoodbyeVal × World :=
  if m.config_manager = true ∧ key ≠ "" then (.coro (.fromRedis key), w)
  else (.coro (.fromPath path), w)

/-- `GoodbyeModel.initialize_embeddings`: awaits `load_or_create_embeddings`
on `f"{self.embeddings_cache_path}/goodbye_embeddings.npy"` (default key
`"default"`) and assigns the result to `self.goodbye_embeddings` — which,
because of the missing awaits, is the un-run coroutine object, not a
matrix. No resolution effect is performed and no failure is possible. -/
def GoodbyeModel.initialize_embeddings (m : GoodbyeModel) (w : World) :
    GoodbyeModel × World :=
  let r := m.load_or_create_embeddings
    (m.embeddings_cache_path ++ "/goodbye_embeddings.npy") "default" w
  ({ m with goodbye_embeddings := some r.1 }, r.2)

/-- `np.max` over a 1-d array: raises `ValueError` on an empty array. -/
def npMax : List ℚ → Except Err ℚ
  | [] => .error .valueError
  | x :: xs => .ok (xs.foldl max x)

/-- `GoodbyeModel.is_goodbye`: assert initialized (any non-`None` value
passes, a coroutine object included); fast path on `"bye" in text.lower()`;
otherwise embed `text.strip().lower()` and evaluate
`embedding @ self.goodbye_embeddings`: against an actual matrix this is the
vector of per-column dot products whose maximum is compared (strictly)
against the threshold; against the stored coroutine object numpy raises
`TypeError`. -/
def GoodbyeModel.is_goodbye (env : Env) (m : GoodbyeModel) (text : String)
    (w : World) : Except Err Bool × World :=
  match m.goodbye_embeddings with
  | none => (.error .notInitialized, w)
  | some stored =>
    if containsSub ("bye".data) (pyLower text.data) then (.ok true, w)
    else
      let step := create_embedding env (String.mk (pyLower (pyStrip text.data))) w
      match step.1 with
      | .error e => (.error e, step.2)
      | .ok embedding =>
        match stored with
        | .coro _ => (.error .typeError, step.2)
        | .arr M =>
          let similarity_results := M.map (fun col => dot embedding col)
          match npMax similarity_results with
          | .error e => (.error e, step.2)
          | .ok mx => (.ok (decide (mx > SIMILARITY_THRESHOLD)), step.2)

/-! ## Helper lemmas -/

/-- `create_embedding` touches only the call log. -/
theorem create_embedding_world (env : Env) (t : String) (w : World) :
    (create_embedding env t w).2 =
      { w with calls := w.calls ++ [{ input := t, param := modelOrEngine env }] } := rfl

/-- The build loop touches neither the store, nor the filesystem, nor the
cache-event log. -/
theorem create_loop_backends (env : Env) :
    ∀ (phrases : List String) (w : World),
      (create_embeddings_loop env phrases w).2.redis = w.redis
      ∧ (create_embeddings_loop env phrases w).2.fs = w.fs
      ∧ (create_embeddings_loop env phrases w).2.events = w.events := by
  intro phrases
  induction phrases with
  | nil => intro w; exact ⟨rfl, rfl, rfl⟩
  | cons p rest ih =>
    intro w
    simp only [create_embeddings_loop, create_embedding]
    cases hp : env.provider p with
    | none => simp [hp]
    | some v =>
      simp only [hp]
      by_cases hlen : v.length = EMBEDDING_SIZE
      · simp only [hlen, if_true]
        have h2 := ih { w with calls := w.calls ++ [{ input := p, param := modelOrEngine env }] }
        cases hr : (create_embeddings_loop env rest
            { w with calls := w.calls ++ [{ input := p, param := modelOrEngine env }] }).1 with
        | error e => simp only [hr]; exact h2
        | ok M => simp only [hr]; exact h2
      · simp [hlen]

/-- The first component of `create_embedding` is the provider's response. -/
theorem create_embedding_fst (env : Env) (t : String) (w : World) :
    (create_embedding env t w).1
      = match env.provider t with
        | some v => .ok v
        | none => .error .providerError := rfl

/-- A successful build loop yields one column per phrase, in order: column
`i` is the provider's embedding of phrase `i`, of the embedding dimension. -/
theorem create_loop_ok_spec (env : Env) :
    ∀ (phrases : List String) (w : World) (M : MatrixT),
      (create_embeddings_loop env phrases w).1 = .ok M →
      M.length = phrases.length
      ∧ ∀ (i : Nat) (hi : i < phrases.length) (hM : i < M.length),
          env.provider (phrases.get ⟨i, hi⟩) = some (M.get ⟨i, hM⟩)
          ∧ (M.get ⟨i, hM⟩).length = EMBEDDING_SIZE := by
  intro phrases
  induction phrases with
  | nil =>
    intro w M h
    simp only [create_embeddings_loop, Except.ok.injEq] at h
    subst h
    exact ⟨rfl, fun i hi => absurd hi (Nat.not_lt_zero i)⟩
  | cons p rest ih =>
    intro w M h
    unfold create_embeddings_loop at h
    dsimp only at h
    rw [create_embedding_fst] at h
    cases hp : env.provider p with
    | none => rw [hp] at h; simp at h
    | some v =>
      rw [hp] at h
      dsimp only at h
      by_cases hlen : v.length = EMBEDDING_SIZE
      · rw [if_pos hlen] at h
        cases hr : (create_embeddings_loop env rest (create_embedding env p w).2).1 with
        | error e => rw [hr] at h; simp at h
        | ok M' =>
          rw [hr] at h
          dsimp only at h
          simp only [Except.ok.injEq] at h
          subst h
          obtain ⟨hlen', hcols⟩ := ih (create_embedding env p w).2 M' hr
          refine ⟨by simp [hlen'], ?_⟩
          intro i hi hM
          cases i with
          | zero => exact ⟨by simpa using hp, by simpa using hlen⟩
          | succ j =>
            have hj : j < rest.length := by simpa using hi
            have hjM : j < M'.length := by simpa using hM
            simpa using hcols j hj hjM
      · rw [if_neg hlen] at h
        simp at h

/-- `logEvent` does not change the store contents. -/
theorem store_get_logEvent (w : World) (e : CacheEvent) (key : String) :
    store_get (logEvent w e) key = store_get w key := rfl

/-- Reading back the key just written returns the written matrix. -/
theorem store_get_put_self (w : World) (key : String) (M : MatrixT) :
    store_get (store_put w key M) key = some M := by
  simp [store_get, store_put]

/-- Store flow, cache hit: the stored matrix is returned as-is after a
single `store.get`. -/
theorem from_redis_hit (env : Env) (m : GoodbyeModel) (key : String) (w : World)
    (N : MatrixT) (hcfg : m.config_manager = true)
    (hg : store_get w key = some N) :
    m._from_redis env key w = (.ok (some N), logEvent w (.storeGet key)) := by
  unfold GoodbyeModel._from_redis
  rw [if_neg (show ¬(m.config_manager = false) by simp [hcfg])]
  dsimp only
  rw [hg]

/-- Store flow, cache miss, successful build: the fresh matrix is written to
the store and returned. -/
theorem from_redis_miss (env : Env) (m : GoodbyeModel) (key : String) (w : World)
    (B : MatrixT) (w2 : World) (hcfg : m.config_manager = true)
    (hg : store_get w key = none)
    (hb : create_embeddings env m.goodbye_phrases (logEvent w (.storeGet key))
      = (.ok B, w2)) :
    m._from_redis env key w
      = (.ok (some B), logEvent (store_put w2 key B) (.storePut key)) := by
  unfold GoodbyeModel._from_redis
  rw [if_neg (show ¬(m.config_manager = false) by simp [hcfg])]
  dsimp only
  rw [hg, hb]

/-- Store flow, cache miss, failed build: the error propagates and the store
is not written. -/
theorem from_redis_miss_err (env : Env) (m : GoodbyeModel) (key : String)
    (w : World) (e : Err) (w2 : World) (hcfg : m.config_manager = true)
    (hg : store_get w key = none)
    (hb : create_embeddings env m.goodbye_phrases (logEvent w (.storeGet key))
      = (.error e, w2)) :
    m._from_redis env key w = (.error e, w2) := by
  unfold GoodbyeModel._from_redis
  rw [if_neg (show ¬(m.config_manager = false) by simp [hcfg])]
  dsimp only
  rw [hg, hb]

/-- File flow, existing file: the file's matrix is returned as-is. -/
theorem from_path_hit (env : Env) (m : GoodbyeModel) (path : String) (w : World)
    (N : MatrixT) (hf : w.fs path = some N) :
    m._from_path env path w = (.ok N, logEvent w (.fileRead path)) := by
  unfold GoodbyeModel._from_path
  rw [hf]

/-- File flow, missing file, successful build: the fresh matrix is saved to
the path and returned. -/
theorem from_path_miss (env : Env) (m : GoodbyeModel) (path : String) (w : World)
    (B : MatrixT) (w2 : World) (hf : w.fs path = none)
    (hb : create_embeddings env m.goodbye_phrases w = (.ok B, w2)) :
    m._from_path env path w
      = (.ok B, logEvent (np_save w2 path B) (.fileWrite path)) := by
  unfold GoodbyeModel._from_path
  rw [hf]
  dsimp only
  rw [hb]

/-- File flow, missing file, failed build: the error propagates and the file
is not written. -/
theorem from_path_miss_err (env : Env) (m : GoodbyeModel) (path : String)
    (w : World) (e : Err) (w2 : World) (hf : w.fs path = none)
    (hb : create_embeddings env m.goodbye_phrases w = (.error e, w2)) :
    m._from_path env path w = (.error e, w2) := by
  unfold GoodbyeModel._from_path
  rw [hf]
  dsimp only
  rw [hb]

/-- `create_embeddings` is the build loop. -/
theorem create_embeddings_backends (env : Env) (phrases : List String)
    (w : World) :
    (create_embeddings env phrases w).2.redis = w.redis
    ∧ (create_embeddings env phrases w).2.fs = w.fs
    ∧ (create_embeddings env phrases w).2.events = w.events :=
  create_loop_backends env phrases w

/-- The events appended by one `logEvent`. -/
theorem drop_events_logEvent (w : World) (e : CacheEvent) :
    (logEvent w e).events.drop w.events.length = [e] := by
  show (w.events ++ [e]).drop w.events.length = [e]
  exact List.drop_left w.events [e]

/-! ## Fixtures for concrete witnesses and bug evaluations -/

def wEmpty : World :=
  { redis := fun _ => none, fs := fun _ => none, calls := [], events := [] }

def envA : Env :=
  { provider := fun _ => some [1], azureEngine := none, openaiKeyEnv := some "k" }

/-- A provider whose every call fails. -/
def envErr : Env :=
  { provider := fun _ => none, azureEngine := none, openaiKeyEnv := some "k" }

/-- An uninitialized model caching to the filesystem. -/
def mU : GoodbyeModel :=
  { embeddings_cache_path := "cache", goodbye_embeddings := none,
    config_manager := false, goodbye_phrases := ["bye"] }

/-- The state `initialize_embeddings` really leaves `mU` in: the un-run
`_from_path` coroutine object. -/
def mA : GoodbyeModel :=
  { embeddings_cache_path := "cache",
    goodbye_embeddings := some (.coro (.fromPath "cache/goodbye_embeddings.npy")),
    config_manager := false, goodbye_phrases := ["bye"] }

/-- The state the spec intends after initialization — an actual matrix
installed. `initialize_embeddings` never produces it. -/
def mArr : GoodbyeModel :=
  { embeddings_cache_path := "cache", goodbye_embeddings := some (.arr [[1]]),
    config_manager := false, goodbye_phrases := ["bye"] }

/-- A world whose filesystem already holds a cached matrix at `mU`'s default
path. -/
def wFile : World :=
  { redis := fun _ => none,
    fs := fun p => if p = "cache/goodbye_embeddings.npy" then some [[1]] else none,
    calls := [], events := [] }

/-- A store-configured model. -/
def mR : GoodbyeModel :=
  { embeddings_cache_path := "cache", goodbye_embeddings := none,
    config_manager := true, goodbye_phrases := ["bye"] }

/-- A world whose store already holds a matrix under `"default"`. -/
def wRedis : World :=
  { redis := fun k => if k = "default" then some [[1]] else none,
    fs := fun _ => none, calls := [], events := [] }

/-- An uninitialized model with an empty phrase list. -/
def mE : GoodbyeModel :=
  { embeddings_cache_path := "cache", goodbye_embeddings := none,
    config_manager := false, goodbye_phrases := [] }

/-- The empty-phrase model at the state the claim presumes: the zero-column
matrix installed. Unreachable through `initialize_embeddings`. -/
def mEArr : GoodbyeModel :=
  { embeddings_cache_path := "cache", goodbye_embeddings := some (.arr []),
    config_manager := false, goodbye_phrases := [] }

/-- Fixtures for the dimension-1536 build witness. -/
def vOnes : Embedding := List.replicate 1536 1

def env1536 : Env :=
  { provider := fun _ => some vOnes, azureEngine := none, openaiKeyEnv := some "k" }

/-! ## Claims -/

/-- C1 (code bug): the claim's threshold rule is the intended behavior, but
the only initialized states the program produces hold the un-run coroutine
(missing awaits at source lines 52-53): evaluated concretely, initialization
leaves the coroutine in `goodbye_embeddings`, and a slow-path input then
raises `TypeError` at `embedding @ self.goodbye_embeddings` — the threshold
comparison is never reached. At the intended (but unreachable) matrix state,
the same input with mocked similarity 1 would classify as a goodbye. -/
theorem is_goodbye_threshold_bug :
    (GoodbyeModel.initialize_embeddings mU wEmpty).1
      = { mU with
          goodbye_embeddings := some (.coro (.fromPath "cache/goodbye_embeddings.npy")) }
    ∧ (GoodbyeModel.is_goodbye envA
        { mU with
          goodbye_embeddings := some (.coro (.fromPath "cache/goodbye_embeddings.npy")) }
        "hello please stay" wEmpty).1 = .error .typeError
    ∧ (GoodbyeModel.is_goodbye envA mArr "hello please stay" wEmpty).1
      = .ok true := by
  refine ⟨rfl, rfl, ?_⟩
  with_unfolding_all rfl

/-- C2: For every input string whose lowercasing contains the substring
"bye", and for an initialized classifier (any non-`None` stored value,
including the un-run coroutine the real initializer stores), `is_goodbye`
returns true and the world is unchanged — in particular no call to the
embedding provider is made (the call log is untouched). -/
theorem is_goodbye_fast_path (env : Env) (m : GoodbyeModel) (text : String)
    (w : World) (v : GoodbyeVal)
    (hM : m.goodbye_embeddings = some v)
    (hbye : containsSub ("bye".data) (pyLower text.data) = true) :
    GoodbyeModel.is_goodbye env m text w = (.ok true, w)
    ∧ (GoodbyeModel.is_goodbye env m text w).2.calls = w.calls := by
  have h : GoodbyeModel.is_goodbye env m text w = (.ok true, w) := by
    simp only [GoodbyeModel.is_goodbye, hM, hbye, if_true]
  exact ⟨h, by rw [h]⟩

/-- Witness for C2: "Goodbye!" is classified true with no provider call, at
the coroutine-holding state real initialization produces. -/
theorem is_goodbye_fast_path_witness :
    GoodbyeModel.is_goodbye envA mA "Goodbye!" wEmpty = (.ok true, wEmpty) := by
  exact (is_goodbye_fast_path envA mA "Goodbye!" wEmpty
    (.coro (.fromPath "cache/goodbye_embeddings.npy")) rfl rfl).1

/-- C3 (code bug): `initialize_embeddings` performs no cache resolution and
never stores a matrix. In general it returns the world untouched and stores
the selected flow's un-run coroutine object; concretely, even with a cached
matrix available at the default path, it neither reads the file nor installs
its contents. -/
theorem initialize_embeddings_bug :
    (∀ (m : GoodbyeModel) (w : World),
      GoodbyeModel.initialize_embeddings m w
        = ({ m with
             goodbye_embeddings := some (.coro (if m.config_manager = true
               then Coro.fromRedis "default"
               else Coro.fromPath
                 (m.embeddings_cache_path ++ "/goodbye_embeddings.npy"))) }, w))
    ∧ GoodbyeModel.initialize_embeddings mU wFile
      = ({ mU with
           goodbye_embeddings := some (.coro (.fromPath "cache/goodbye_embeddings.npy")) },
         wFile) := by
  refine ⟨?_, rfl⟩
  intro m w
  unfold GoodbyeModel.initialize_embeddings GoodbyeModel.load_or_create_embeddings
  dsimp only
  by_cases hc : m.config_manager = true
  · rw [if_pos (show m.config_manager = true ∧ "default" ≠ "" from ⟨hc, by decide⟩),
      if_pos hc]
  · rw [if_neg (show ¬(m.config_manager = true ∧ "default" ≠ "") from
      fun hcc => hc hcc.1), if_neg hc]

/-- C4 (code bug): a cache-resolution call exercises zero flows: the source
returns the selected flow's coroutine without awaiting it, so no `store.get`
is attempted, nothing is built or written, and the world is returned
untouched; the result is a coroutine object, never a matrix. Concretely,
with a configured store already holding a cached entry under the key, the
resolution call does not even read it. -/
theorem cache_resolution_bug (m : GoodbyeModel) (path key : String) (w : World) :
    m.load_or_create_embeddings path key w
      = (.coro (if m.config_manager = true ∧ key ≠ "" then Coro.fromRedis key
                else Coro.fromPath path), w)
    ∧ GoodbyeModel.load_or_create_embeddings mR "p" "default" wRedis
      = (.coro (.fromRedis "default"), wRedis) := by
  refine ⟨?_, rfl⟩
  unfold GoodbyeModel.load_or_create_embeddings
  by_cases hc : m.config_manager = true ∧ key ≠ ""
  · rw [if_pos hc, if_pos hc]
  · rw [if_neg hc, if_neg hc]

/-- C5 (code bug): classifying without initialization does fail with the
"not initialized" assertion (that half of the claim holds), and after
initialization the assertion always passes (the stored value is never
`None`); but "a boolean is returned" is false: at the state initialization
really produces, a slow-path input makes the provider call succeed and then
raises `TypeError` at the matmul against the stored coroutine. -/
theorem classify_precondition_bug :
    (GoodbyeModel.is_goodbye envA mU "hello" wEmpty)
      = (.error .notInitialized, wEmpty)
    ∧ (∀ (m : GoodbyeModel) (w : World),
        ((GoodbyeModel.initialize_embeddings m w).1).goodbye_embeddings.isSome
          = true)
    ∧ (GoodbyeModel.is_goodbye envA
        (GoodbyeModel.initialize_embeddings mU wEmpty).1 "hello" wEmpty).1
      = .error .typeError := by
  exact ⟨rfl, fun m w => rfl, rfl⟩

/-- C6: For every phrase list, a successfully built reference matrix has the
embedding dimension as its row count (every column has length
`EMBEDDING_SIZE`) and the phrase count as its column count, and column `i`
equals the provider's embedding of phrase `i`; moreover the store round
trip preserves the matrix: after any successful store-flow resolution, an
immediate re-resolution is a cache hit returning the very same matrix, so
the column correspondence also holds after the cache-hit path. -/
theorem matrix_column_invariant (env : Env) (phrases : List String) (w : World)
    (M : MatrixT)
    (hbuild : (create_embeddings env phrases w).1 = .ok M) :
    M.length = phrases.length
    ∧ (∀ (i : Nat) (hi : i < phrases.length) (hM : i < M.length),
        env.provider (phrases.get ⟨i, hi⟩) = some (M.get ⟨i, hM⟩)
        ∧ (M.get ⟨i, hM⟩).length = EMBEDDING_SIZE)
    ∧ (∀ (m : GoodbyeModel) (key : String) (w0 w1 : World) (N : MatrixT),
        m._from_redis env key w0 = (.ok (some N), w1) →
        m._from_redis env key w1 = (.ok (some N), logEvent w1 (.storeGet key))) := by
  obtain ⟨h1, h2⟩ := create_loop_ok_spec env phrases w M hbuild
  refine ⟨h1, h2, ?_⟩
  intro m key w0 w1 N hfirst
  unfold GoodbyeModel._from_redis at hfirst ⊢
  by_cases hcfg : m.config_manager = false
  · rw [if_pos hcfg] at hfirst
    simp at hfirst
  · rw [if_neg hcfg] at hfirst
    rw [if_neg hcfg]
    dsimp only at hfirst ⊢
    cases hg : store_get w0 key with
    | some P =>
      rw [hg] at hfirst
      dsimp only at hfirst
      simp only [Prod.mk.injEq, Except.ok.injEq, Option.some.injEq] at hfirst
      obtain ⟨hPN, hw1⟩ := hfirst
      subst hw1
      rw [store_get_logEvent, hg, hPN]
    | none =>
      rw [hg] at hfirst
      dsimp only at hfirst
      cases hb : (create_embeddings env m.goodbye_phrases
          (logEvent w0 (.storeGet key))).1 with
      | error e => rw [hb] at hfirst; simp at hfirst
      | ok B =>
        rw [hb] at hfirst
        dsimp only at hfirst
        simp only [Prod.mk.injEq, Except.ok.injEq, Option.some.injEq] at hfirst
        obtain ⟨hBN, hw1⟩ := hfirst
        subst hw1
        rw [store_get_logEvent, store_get_put_self, hBN]

set_option maxRecDepth 100000 in
/-- Witness for C6: a one-phrase build against a provider returning a
1536-dimensional vector. -/
theorem matrix_column_invariant_witness :
    env1536.provider "bye" = some vOnes ∧ vOnes.length = EMBEDDING_SIZE := by
  have h := (matrix_column_invariant env1536 ["bye"] wEmpty [vOnes]
    (by rfl)).2.1 0 (by decide) (by decide)
  exact ⟨h.1, h.2⟩

/-- C7: If any single embedding call fails during matrix construction, the
build aborts immediately with that error (only the failing call is logged),
and a failed build leaves both cache backends exactly as they were, in
either flow body: a failing `_from_redis` build performs no `store.put`; a
failing `_from_path` build performs no file save. A cache backend is only
written after the full build succeeds. -/
theorem failed_build_writes_nothing (env : Env) (m : GoodbyeModel)
    (path key : String) (w : World) (e : Err) (w' : World) :
    (m._from_redis env key w = (.error e, w') →
        w'.redis = w.redis ∧ w'.fs = w.fs
        ∧ ∀ ev ∈ w'.events.drop w.events.length, ev.isWrite = false)
    ∧ (m._from_path env path w = (.error e, w') →
        w'.redis = w.redis ∧ w'.fs = w.fs
        ∧ ∀ ev ∈ w'.events.drop w.events.length, ev.isWrite = false)
    ∧ (∀ (p : String) (rest : List String) (w0 : World),
        env.provider p = none →
        create_embeddings env (p :: rest) w0
          = (.error .providerError,
             { w0 with calls := w0.calls
                ++ [{ input := p, param := modelOrEngine env }] })) := by
  have habort : ∀ (p : String) (rest : List String) (w0 : World),
      env.provider p = none →
      create_embeddings env (p :: rest) w0
        = (.error .providerError,
           { w0 with calls := w0.calls
              ++ [{ input := p, param := modelOrEngine env }] }) := by
    intro p rest w0 hp
    show create_embeddings_loop env (p :: rest) w0 = _
    unfold create_embeddings_loop
    dsimp only
    rw [create_embedding_fst, hp]
    rfl
  refine ⟨?_, ?_, habort⟩
  · intro h
    by_cases hcfg : m.config_manager = true
    · cases hg : store_get w key with
      | some N =>
        rw [from_redis_hit env m key w N hcfg hg] at h
        simp at h
      | none =>
        rcases hbp : create_embeddings env m.goodbye_phrases
          (logEvent w (.storeGet key)) with ⟨res, w2⟩
        have hB := create_embeddings_backends env m.goodbye_phrases
          (logEvent w (.storeGet key))
        rw [hbp] at hB
        cases res with
        | ok B =>
          rw [from_redis_miss env m key w B w2 hcfg hg hbp] at h
          simp at h
        | error e0 =>
          rw [from_redis_miss_err env m key w e0 w2 hcfg hg hbp] at h
          simp only [Prod.mk.injEq] at h
          obtain ⟨_, hw⟩ := h
          subst hw
          refine ⟨hB.1, hB.2.1, ?_⟩
          intro ev hev
          have h2' : w2.events = w.events ++ [CacheEvent.storeGet key] := hB.2.2
          rw [h2', List.drop_left] at hev
          simp at hev
          subst hev
          rfl
    · have hcf : m.config_manager = false := by simpa using hcfg
      unfold GoodbyeModel._from_redis at h
      rw [if_pos hcf] at h
      simp at h
  · intro h
    cases hf : w.fs path with
    | some N =>
      rw [from_path_hit env m path w N hf] at h
      simp at h
    | none =>
      rcases hbp : create_embeddings env m.goodbye_phrases w with ⟨res, w2⟩
      have hB := create_embeddings_backends env m.goodbye_phrases w
      rw [hbp] at hB
      cases res with
      | ok B =>
        rw [from_path_miss env m path w B w2 hf hbp] at h
        simp at h
      | error e0 =>
        rw [from_path_miss_err env m path w e0 w2 hf hbp] at h
        simp only [Prod.mk.injEq] at h
        obtain ⟨_, hw⟩ := h
        subst hw
        refine ⟨hB.1, hB.2.1, ?_⟩
        intro ev hev
        rw [hB.2.2, List.drop_length] at hev
        simp at hev

/-- Witness for C7: a failed build through the file flow leaves the
filesystem untouched. -/
theorem failed_build_writes_nothing_witness :
    ((GoodbyeModel._from_path envErr mU "p" wEmpty).2).fs = wEmpty.fs := by
  have h := (failed_build_writes_nothing envErr mU "p" "default" wEmpty
    .providerError ((GoodbyeModel._from_path envErr mU "p" wEmpty).2)).2.1 rfl
  exact h.2.1

/-- C8: the model-or-engine request parameter is a function of the static
configuration only: each `create_embedding` call logs exactly one request
carrying `modelOrEngine env`, so any two calls within one configuration use
the same parameter. -/
theorem provider_param_static (env : Env) (t : String) (w : World) :
    (create_embedding env t w).2.calls
      = w.calls ++ [{ input := t, param := modelOrEngine env }]
    ∧ ∀ (t' : String) (w' : World),
        ((create_embedding env t w).2.calls.drop w.calls.length).map
            EmbedCall.param
          = ((create_embedding env t' w').2.calls.drop w'.calls.length).map
            EmbedCall.param := by
  refine ⟨rfl, ?_⟩
  intro t' w'
  have h1 : (create_embedding env t w).2.calls.drop w.calls.length
      = [{ input := t, param := modelOrEngine env }] := by
    show (w.calls ++ [({ input := t, param := modelOrEngine env } : EmbedCall)]).drop
        w.calls.length = _
    exact List.drop_left _ _
  have h2 : (create_embedding env t' w').2.calls.drop w'.calls.length
      = [{ input := t', param := modelOrEngine env }] := by
    show (w'.calls ++ [({ input := t', param := modelOrEngine env } : EmbedCall)]).drop
        w'.calls.length = _
    exact List.drop_left _ _
  rw [h1, h2]
  rfl

/-- C9: constructing a `GoodbyeModel` overwrites the process-global
`openai.api_key` with the supplied (or environment-derived) credential,
regardless of the global's prior value — so one construction changes the
credential observed by every other user of the shared module state. -/
theorem construction_mutates_global (env : Env) (p : String)
    (key? : Option String) (cfg : Bool) (ph : List String)
    (g g' : OpenAIGlobal) :
    (GoodbyeModel.init env p key? cfg ph g).2
      = { api_key := pyOrStr key? env.openaiKeyEnv }
    ∧ (GoodbyeModel.init env p key? cfg ph g).2
      = (GoodbyeModel.init env p key? cfg ph g').2 := by
  have h : ∀ g0 : OpenAIGlobal, (GoodbyeModel.init env p key? cfg ph g0).2
      = { api_key := pyOrStr key? env.openaiKeyEnv } := by
    intro g0
    unfold GoodbyeModel.init
    dsimp only
    by_cases ht : truthyStr (pyOrStr key? env.openaiKeyEnv) = true
    · rw [if_pos ht]
    · rw [if_neg ht]
  exact ⟨h g, by rw [h g, h g']⟩

/-- C10 (code bug): with an empty phrase list the build does succeed with a
zero-column matrix, and at the state holding that matrix the slow path
would fail exactly with the `ValueError` of `np.max` over zero similarity
scores — but that state is never reached: initialization stores the un-run
coroutine instead, and the slow path after real initialization fails
earlier, with `TypeError` at the matmul, regardless of the phrase list. -/
theorem empty_phrase_list_bug :
    create_embeddings envA ([] : List String) wEmpty = (.ok [], wEmpty)
    ∧ (GoodbyeModel.is_goodbye envA mEArr "hello" wEmpty).1 = .error .valueError
    ∧ (GoodbyeModel.is_goodbye envA
        (GoodbyeModel.initialize_embeddings mE wEmpty).1 "hello" wEmpty).1
      = .error .typeError := by
  exact ⟨rfl, rfl, rfl⟩
